import Mathlib

/-!
Verification of the cart-to-order core of the SigNoz e-commerce demo app
(`internal/services/order.go`, `internal/services/cart.go`,
`internal/services/product.go`).

The relational store is embedded as an explicit state (`DBState`): each SQL
table becomes a list of rows, server-assigned auto-increment ids become
explicit counters.  A store operation that can fail at the driver level is
given a fault flag (`Faults`, `UFaults`): the flag set means that call
returns a driver error, exactly as `database/sql` would surface it.  Prices
are modelled as exact rationals (the Go code uses `float64`; every claim
below concerns sums recombined from the same summands, for which the exact
model is the intended semantics).  Timestamps that the claims never inspect
(`created_at`, `updated_at`) are omitted from the row types.
-/

set_option autoImplicit false

/-- Decidable equality for `Except`, so that operation results can be
evaluated on concrete inputs. -/
instance {ε α : Type _} [DecidableEq ε] [DecidableEq α] : DecidableEq (Except ε α)
  | Except.error e, Except.error e' =>
    if h : e = e' then Decidable.isTrue (congrArg Except.error h)
    else Decidable.isFalse (fun he => h (Except.error.inj he))
  | Except.error _, Except.ok _ => Decidable.isFalse (fun he => Except.noConfusion he)
  | Except.ok _, Except.error _ => Decidable.isFalse (fun he => Except.noConfusion he)
  | Except.ok a, Except.ok a' =>
    if h : a = a' then Decidable.isTrue (congrArg Except.ok h)
    else Decidable.isFalse (fun he => h (Except.ok.inj he))

namespace Ecom

/-- A row of the `products` table (models.Product; timestamps omitted). -/
structure ProductRow where
  id : Int
  name : String
  description : String
  price : ℚ
  category : String
  sku : String
deriving DecidableEq, Repr

/-- A row of the `carts` table (models.Cart; timestamps omitted). -/
structure CartRow where
  id : Int
  userId : Int
deriving DecidableEq, Repr

/-- A row of the `cart_items` table (models.CartItem; timestamps omitted). -/
structure CartItemRow where
  id : Int
  cartId : Int
  productId : Int
  quantity : Int
deriving DecidableEq, Repr

/-- A row of the `orders` table (models.Order; timestamps omitted). -/
structure OrderRow where
  id : Int
  userId : Int
  status : String
  paymentMethod : String
  totalAmount : ℚ
  currency : String
deriving DecidableEq, Repr

/-- A row of the `order_items` table (models.OrderItem; timestamps omitted). -/
structure OrderItemRow where
  orderId : Int
  productId : Int
  quantity : Int
  price : ℚ
deriving DecidableEq, Repr

/-- The relational store: one list per table, plus the auto-increment
counters that back `LastInsertId`. -/
structure DBState where
  products : List ProductRow
  carts : List CartRow
  cartItems : List CartItemRow
  orders : List OrderRow
  orderItems : List OrderItemRow
  nextOrderId : Int
  nextCartId : Int
  nextCartItemId : Int
deriving DecidableEq, Repr

/-- The error taxonomy, one constructor per `fmt.Errorf` site the claims
touch. -/
inductive Err where
  | beginTx
  | getCartItems
  | emptyCart
  | createOrder
  | createOrderItem
  | commitTx
  | orderNotFound
  | getOrder
  | invalidStatus
  | updateStatus
  | rowsAffected
  | productNotFound
  | getCart
deriving DecidableEq, Repr

/-- A metric emission: `OrdersCreated.Add` or `RevenueTotal.Add` with the
attributes the code attaches. -/
inductive Event where
  | ordersCreated (category status paymentMethod : String) (count : Nat)
  | revenue (category status paymentMethod currency : String) (amount : ℚ)
deriving DecidableEq, Repr

/-- Fault flags for the store calls made by `CreateOrder`, in call order.
`itemInsert = some k` makes the k-th `order_items` insert fail. -/
structure Faults where
  beginTx : Bool
  cartQuery : Bool
  catQuery : Bool
  orderInsert : Bool
  itemInsert : Option Nat
  cartIdLookup : Bool
  cartDelete : Bool
  commit : Bool
  getOrder : Bool
deriving DecidableEq, Repr

/-- The all-succeed fault assignment. -/
def noFaults : Faults :=
  ⟨false, false, false, false, Option.none, false, false, false, false⟩

/-- A line of the cart snapshot read in step 2 of `CreateOrder`
(`SELECT ci.product_id, ci.quantity, p.price ...`). -/
structure SnapItem where
  productId : Int
  quantity : Int
  price : ℚ
deriving DecidableEq, Repr

/-- A snapshot line together with its resolved category
(`itemWithCategory` in order.go). -/
structure ItemCat where
  productId : Int
  quantity : Int
  price : ℚ
  category : String
deriving DecidableEq, Repr

/-- The cart-snapshot query of `CreateOrder` (order.go:44-50): cart items
joined with `products` (for the current price) and with `carts`
restricted to the given user.  Primary-key lookups use `find?`. -/
def cartSnapshot (st : DBState) (userID : Int) : List SnapItem :=
  st.cartItems.filterMap (fun ci =>
    match st.carts.find? (fun c => c.id == ci.cartId) with
    | Option.none => Option.none
    | Option.some c =>
      if c.userId == userID then
        match st.products.find? (fun p => p.id == ci.productId) with
        | Option.none => Option.none
        | Option.some p => Option.some ⟨ci.productId, ci.quantity, p.price⟩
      else Option.none)

/-- `totalAmount` accumulated over the snapshot (order.go:75). -/
def orderTotal (items : List SnapItem) : ℚ :=
  (items.map (fun it => it.price * (it.quantity : ℚ))).sum

/-- Category resolution for one snapshot line (order.go:106-136): the
separate non-transactional category query fills `categoryMap`; a failed
query leaves the map empty, and a missing key or empty category falls back
to `"unknown"`. -/
def itemCategory (st : DBState) (catQueryFailed : Bool) (pid : Int) : String :=
  if catQueryFailed then "unknown"
  else
    match st.products.find? (fun p => p.id == pid) with
    | Option.none => "unknown"
    | Option.some p => if p.category == "" then "unknown" else p.category

/-- Whether the order-items insert loop (order.go:158-165) hits a fault. -/
def itemInsertFails (f : Faults) (items : List SnapItem) : Bool :=
  match f.itemInsert with
  | Option.some k => decide (k < items.length)
  | Option.none => false

/-- The cart-clear block of `CreateOrder` (order.go:168-176): look up the
user's cart id, and only when that lookup succeeds delete the cart's
items; the block's error is never returned (it is overwritten by
`err = tx.Commit()`). -/
def clearCartStep (tx : DBState) (f : Faults) (userID : Int) : DBState :=
  if f.cartIdLookup then tx
  else
    match tx.carts.find? (fun c => c.userId == userID) with
    | Option.none => tx
    | Option.some c =>
      if f.cartDelete then tx
      else { tx with cartItems := tx.cartItems.filter (fun ci => ¬ ci.cartId == c.id) }

/-- One step of building the per-category (line count, revenue) maps
(`categoryOrders`/`categoryRevenue`, order.go:196-202), as an association
list keyed by category. -/
def addAgg (m : List (String × Nat × ℚ)) (c : String) (a : ℚ) :
    List (String × Nat × ℚ) :=
  match m with
  | [] => [(c, 1, a)]
  | (c', n, a') :: rest =>
    if c' = c then (c', n + 1, a' + a) :: rest else (c', n, a') :: addAgg rest c a

/-- The per-category aggregate over (category, line amount) pairs. -/
def aggregate (l : List (String × ℚ)) : List (String × Nat × ℚ) :=
  l.foldl (fun m p => addAgg m p.1 p.2) []

/-- The metric-emission loop (order.go:207-233): per aggregated category,
one `OrdersCreated` event and one `RevenueTotal` event. -/
def emitEvents (agg : List (String × Nat × ℚ)) (status paymentMethod currency : String) :
    List Event :=
  agg.flatMap (fun e =>
    [Event.ordersCreated e.1 status paymentMethod e.2.1,
     Event.revenue e.1 status paymentMethod currency e.2.2])

/-- `GetOrder` (order.go:242-263) against a given state: primary-key read
of `orders`. -/
def GetOrder (st : DBState) (orderID : Int) : Except Err OrderRow :=
  match st.orders.find? (fun o => o.id == orderID) with
  | Option.none => Except.error Err.orderNotFound
  | Option.some o => Except.ok o

/-- The transaction-local state of `CreateOrder` after the order insert
(order.go:142-153) and the per-line order-item inserts (order.go:156-165):
one `orders` row with status `pending` and the snapshot total, and one
`order_items` row per snapshot line carrying the captured unit price. -/
def insertTx (st : DBState) (userID : Int) (paymentMethod currency : String) : DBState :=
  { st with
    orders := st.orders ++
      [⟨st.nextOrderId, userID, "pending", paymentMethod,
        orderTotal (cartSnapshot st userID), currency⟩],
    nextOrderId := st.nextOrderId + 1,
    orderItems := st.orderItems ++
      (cartSnapshot st userID).map
        (fun it => ⟨st.nextOrderId, it.productId, it.quantity, it.price⟩) }

/-- `CreateOrder` (order.go:33-239).  Transactional writes accumulate in a
local copy of the state; an early return before the commit restores the
input state (the deferred `tx.Rollback()`).  The cart-clear block's error
is overwritten by `err = tx.Commit()`, so a failed cart-id lookup or cart
delete does not abort the operation.  Returns the hydrated order and the
emitted metric events. -/
def CreateOrder (st : DBState) (f : Faults) (userID : Int)
    (paymentMethod currency : String) :
    Except Err (OrderRow × List Event) × DBState :=
  if f.beginTx then (Except.error Err.beginTx, st)
  else if f.cartQuery then (Except.error Err.getCartItems, st)
  else
    let items := cartSnapshot st userID
    if items.isEmpty then (Except.error Err.emptyCart, st)
    else
      let itemsWithCategories : List ItemCat :=
        items.map (fun it =>
          ⟨it.productId, it.quantity, it.price, itemCategory st f.catQuery it.productId⟩)
      if f.orderInsert then (Except.error Err.createOrder, st)
      else if itemInsertFails f items then (Except.error Err.createOrderItem, st)
      else
        let tx₃ := clearCartStep (insertTx st userID paymentMethod currency) f userID
        if f.commit then (Except.error Err.commitTx, st)
        else if f.getOrder then (Except.error Err.getOrder, tx₃)
        else
          match GetOrder tx₃ st.nextOrderId with
          | Except.error e => (Except.error e, tx₃)
          | Except.ok order =>
            let agg := aggregate (itemsWithCategories.map
              (fun it => (it.category, it.price * (it.quantity : ℚ))))
            (Except.ok (order, emitEvents agg order.status paymentMethod currency), tx₃)

/-- Fault flags for the store calls made by `UpdateOrderStatus`, in call
order. -/
structure UFaults where
  update : Bool
  rowsAffected : Bool
  getOrder : Bool
  itemsQuery : Bool
deriving DecidableEq, Repr

/-- The all-succeed fault assignment for `UpdateOrderStatus`. -/
def noUFaults : UFaults := ⟨false, false, false, false⟩

/-- The six recognized status labels (order.go:297-304). -/
def validStatuses : List String :=
  ["pending", "processing", "completed", "cancelled", "shipped", "delivered"]

/-- The completed-order items query of `UpdateOrderStatus`
(order.go:337-342): order items joined with `products` for the category;
a missing product drops the row (inner join), and the category is taken
verbatim (no `"unknown"` fallback in this branch). -/
def orderItemsWithCategory (st : DBState) (orderID : Int) : List ItemCat :=
  st.orderItems.filterMap (fun oi =>
    if oi.orderId == orderID then
      match st.products.find? (fun p => p.id == oi.productId) with
      | Option.none => Option.none
      | Option.some p => Option.some ⟨oi.productId, oi.quantity, oi.price, p.category⟩
    else Option.none)

/-- `UpdateOrderStatus` (order.go:293-398).  Validation precedes any store
call; the `UPDATE` touches every `orders` row matching the id; a zero
`RowsAffected` yields `orderNotFound`; the completed-branch metric side
effect is best-effort — its failures are logged and `nil` is returned. -/
def UpdateOrderStatus (st : DBState) (f : UFaults) (orderID : Int) (status : String) :
    Except Err (List Event) × DBState :=
  if ¬ validStatuses.contains status then (Except.error Err.invalidStatus, st)
  else if f.update then (Except.error Err.updateStatus, st)
  else
    let matched := (st.orders.filter (fun o => o.id == orderID)).length
    let st' : DBState :=
      { st with orders := st.orders.map (fun o =>
          if o.id == orderID then { o with status := status } else o) }
    if f.rowsAffected then (Except.error Err.rowsAffected, st')
    else if matched == 0 then (Except.error Err.orderNotFound, st')
    else if ¬ status == "completed" then (Except.ok [], st')
    else if f.getOrder then (Except.ok [], st')
    else
      match GetOrder st' orderID with
      | Except.error _ => (Except.ok [], st')
      | Except.ok order =>
        if f.itemsQuery then (Except.ok [], st')
        else
          let its := orderItemsWithCategory st' orderID
          let agg := aggregate (its.map
            (fun it => (it.category, it.price * (it.quantity : ℚ))))
          (Except.ok (emitEvents agg "completed" order.paymentMethod order.currency), st')

/-- `GetOrCreateCart` (cart.go:53-92) on the success path of its store
calls: first cart row for the user, or a fresh insert. -/
def GetOrCreateCart (st : DBState) (userID : Int) : CartRow × DBState :=
  match st.carts.find? (fun c => c.userId == userID) with
  | Option.some c => (c, st)
  | Option.none =>
    let c : CartRow := ⟨st.nextCartId, userID⟩
    (c, { st with carts := st.carts ++ [c], nextCartId := st.nextCartId + 1 })

/-- The `EXISTS` product check of `AddToCart` (cart.go:102-109). -/
def productExists (st : DBState) (pid : Int) : Bool :=
  st.products.any (fun p => p.id == pid)

/-- `AddToCart` (cart.go:95-149) on the success path of its store calls:
get-or-create the cart, verify the product exists, then either insert a
new `cart_items` row or bump the quantity of the existing row found by
(cart, product). -/
def AddToCart (st : DBState) (userID productID quantity : Int) :
    Except Err Unit × DBState :=
  let r := GetOrCreateCart st userID
  let cart := r.1
  let st₁ := r.2
  if ¬ productExists st₁ productID then (Except.error Err.productNotFound, st₁)
  else
    match st₁.cartItems.find? (fun ci => ci.cartId == cart.id && ci.productId == productID) with
    | Option.none =>
      (Except.ok (),
        { st₁ with
          cartItems := st₁.cartItems ++ [⟨st₁.nextCartItemId, cart.id, productID, quantity⟩],
          nextCartItemId := st₁.nextCartItemId + 1 })
    | Option.some ex =>
      (Except.ok (),
        { st₁ with cartItems := st₁.cartItems.map (fun ci =>
            if ci.id == ex.id then { ci with quantity := ci.quantity + quantity } else ci) })

/-- A cache entry (`cachedProduct`, product.go:24-27); the expiry instant
is an integer timestamp in nanoseconds. -/
structure CacheEntry where
  product : ProductRow
  expires : Int
deriving DecidableEq, Repr

/-- The cache map (`ProductCache.items`, product.go:19-22), keyed by
product id. -/
def Cache : Type := Int → Option CacheEntry

/-- The fixed TTL: `5 * time.Minute` in nanoseconds (product.go:122). -/
def cacheTTL : Int := 300000000000

/-- The cache lookup of `GetProduct` (product.go:79-97): a hit requires
the entry to exist and `now` to be strictly before its expiry. -/
def cacheGet (c : Cache) (now : Int) (id : Int) : Option ProductRow :=
  match c id with
  | Option.none => Option.none
  | Option.some e => if now < e.expires then Option.some e.product else Option.none

/-- The cache population of `GetProduct` (product.go:119-124): insert or
replace the entry with expiry `now + TTL`. -/
def cachePut (c : Cache) (now : Int) (id : Int) (p : ProductRow) : Cache :=
  fun k => if k == id then Option.some ⟨p, now + cacheTTL⟩ else c k

/-! ### Helper lemmas -/

theorem clearCartStep_orders (tx : DBState) (f : Faults) (u : Int) :
    (clearCartStep tx f u).orders = tx.orders := by
  unfold clearCartStep
  split_ifs <;> try rfl
  all_goals split <;> rfl

theorem clearCartStep_orderItems (tx : DBState) (f : Faults) (u : Int) :
    (clearCartStep tx f u).orderItems = tx.orderItems := by
  unfold clearCartStep
  split_ifs <;> try rfl
  all_goals split <;> rfl

theorem clearCartStep_carts (tx : DBState) (f : Faults) (u : Int) :
    (clearCartStep tx f u).carts = tx.carts := by
  unfold clearCartStep
  split_ifs <;> try rfl
  all_goals split <;> rfl

/-- A failed cart-id lookup or cart-items delete leaves the transaction
state untouched. -/
theorem clearCartStep_fault (tx : DBState) (f : Faults) (u : Int)
    (h : f.cartIdLookup = true ∨ f.cartDelete = true) :
    clearCartStep tx f u = tx := by
  unfold clearCartStep
  split_ifs <;> try rfl
  all_goals (try (split <;> rfl))
  all_goals (rcases h with h | h <;> simp_all)

theorem GetOrder_isOk_of_mem (tx : DBState) (oid : Int)
    (h : ∃ o ∈ tx.orders, o.id = oid) : ∃ o, GetOrder tx oid = Except.ok o := by
  rcases hf : tx.orders.find? (fun o => o.id == oid) with _ | o
  · rw [List.find?_eq_none] at hf
    obtain ⟨o, ho, hid⟩ := h
    exact absurd (by simpa using hid) (by simpa using hf o ho)
  · exact ⟨o, by simp [GetOrder, hf]⟩

/-- The freshly inserted order row is in the committed state's `orders`. -/
theorem insertTx_order_mem (st : DBState) (f : Faults) (u : Int) (pm cur : String) :
    (⟨st.nextOrderId, u, "pending", pm, orderTotal (cartSnapshot st u), cur⟩ : OrderRow)
      ∈ (clearCartStep (insertTx st u pm cur) f u).orders := by
  rw [clearCartStep_orders]
  exact List.mem_append_right _ (List.mem_singleton_self _)

/-- The post-commit re-read of the freshly inserted order never fails. -/
theorem GetOrder_insertTx_isOk (st : DBState) (f : Faults) (u : Int) (pm cur : String) :
    ∃ o, GetOrder (clearCartStep (insertTx st u pm cur) f u) st.nextOrderId
        = Except.ok o :=
  GetOrder_isOk_of_mem _ st.nextOrderId
    ⟨⟨st.nextOrderId, u, "pending", pm, orderTotal (cartSnapshot st u), cur⟩,
     insertTx_order_mem st f u pm cur, rfl⟩

/-- Every surfaced `CreateOrder` error before the post-commit re-read
leaves the store unchanged (the deferred rollback). -/
theorem createOrder_error_rollback (st : DBState) (f : Faults) (u : Int) (pm cur : String)
    (hg : f.getOrder = false) (e : Err)
    (h : (CreateOrder st f u pm cur).1 = Except.error e) :
    (CreateOrder st f u pm cur).2 = st := by
  unfold CreateOrder at h ⊢
  split_ifs at h ⊢ <;> try rfl
  all_goals simp_all
  all_goals split_ifs at h ⊢ <;> try rfl
  rcases hG : GetOrder (clearCartStep (insertTx st u pm cur) f u) st.nextOrderId with e' | o
  · obtain ⟨o, ho⟩ := GetOrder_insertTx_isOk st f u pm cur
    rw [ho] at hG
    exact absurd hG (by simp)
  · rw [hG] at h
    simp at h

theorem createOrder_step6_swallowed (st : DBState) (f : Faults) (u : Int) (pm cur : String)
    (hb : f.beginTx = false) (hq : f.cartQuery = false) (ho : f.orderInsert = false)
    (hi : f.itemInsert = Option.none) (hc : f.commit = false) (hg : f.getOrder = false)
    (h6 : f.cartIdLookup = true ∨ f.cartDelete = true)
    (hne : cartSnapshot st u ≠ []) :
    (CreateOrder st f u pm cur).1.isOk = true
    ∧ (CreateOrder st f u pm cur).2.cartItems = st.cartItems
    ∧ (CreateOrder st f u pm cur).2.orders =
        st.orders ++ [⟨st.nextOrderId, u, "pending", pm, orderTotal (cartSnapshot st u), cur⟩] := by
  have hne' : (cartSnapshot st u).isEmpty = false := by
    simpa [List.isEmpty_iff] using hne
  unfold CreateOrder
  simp only [hb, hq, ho, hc, hg, hne', itemInsertFails, hi, Bool.false_eq_true, if_false]
  rcases hG : GetOrder (clearCartStep (insertTx st u pm cur) f u) st.nextOrderId with e' | o
  · obtain ⟨o, hok⟩ := GetOrder_insertTx_isOk st f u pm cur
    rw [hok] at hG
    exact absurd hG (by simp)
  · rw [clearCartStep_fault _ _ _ h6]
    simp [Except.isOk, Except.toBool, clearCartStep_fault _ _ _ h6, insertTx]

/-- The per-entry revenue amounts of an aggregate. -/
def aggAmounts (m : List (String × Nat × ℚ)) : List ℚ := m.map (fun e => e.2.2)

/-- The category keys of an aggregate. -/
def aggCats (m : List (String × Nat × ℚ)) : List String := m.map (fun e => e.1)

theorem addAgg_amounts_sum (m : List (String × Nat × ℚ)) (c : String) (a : ℚ) :
    (aggAmounts (addAgg m c a)).sum = (aggAmounts m).sum + a := by
  induction m with
  | nil => simp [addAgg, aggAmounts]
  | cons e rest ih =>
    obtain ⟨c', n, a'⟩ := e
    by_cases h : c' = c <;> simp [addAgg, aggAmounts, h] at ih ⊢
    · ring
    · rw [ih]; ring

theorem aggCats_addAgg (m : List (String × Nat × ℚ)) (c : String) (a : ℚ) :
    aggCats (addAgg m c a) = if c ∈ aggCats m then aggCats m else aggCats m ++ [c] := by
  induction m with
  | nil => simp [addAgg, aggCats]
  | cons e rest ih =>
    obtain ⟨c', n, a'⟩ := e
    by_cases h : c' = c
    · subst h
      simp [addAgg, aggCats]
    · have hcons : aggCats ((c', n, a') :: rest) = c' :: aggCats rest := rfl
      have h2 : aggCats (addAgg ((c', n, a') :: rest) c a)
          = c' :: aggCats (addAgg rest c a) := by
        simp [addAgg, h, aggCats]
      rw [h2, ih, hcons]
      by_cases hm : c ∈ aggCats rest
      · rw [if_pos hm, if_pos (List.mem_cons_of_mem _ hm)]
      · rw [if_neg hm, if_neg ?_, List.cons_append]
        intro hcc
        rcases List.mem_cons.mp hcc with hcc | hcc
        · exact h hcc.symm
        · exact hm hcc

theorem addAgg_cats_mem (m : List (String × Nat × ℚ)) (c : String) (a : ℚ) (x : String) :
    x ∈ aggCats (addAgg m c a) ↔ x ∈ aggCats m ∨ x = c := by
  rw [aggCats_addAgg]
  split_ifs with hc
  · constructor
    · exact Or.inl
    · rintro (h | rfl)
      · exact h
      · exact hc
  · rw [List.mem_append, List.mem_singleton]

theorem addAgg_cats_nodup (m : List (String × Nat × ℚ)) (c : String) (a : ℚ)
    (h : (aggCats m).Nodup) : (aggCats (addAgg m c a)).Nodup := by
  rw [aggCats_addAgg]
  split_ifs with hc
  · exact h
  · refine List.Nodup.append h (List.nodup_singleton c) ?_
    intro x hx hx'
    rw [List.mem_singleton] at hx'
    exact hc (hx' ▸ hx)

theorem aggregate_go_amounts (l : List (String × ℚ)) (m : List (String × Nat × ℚ)) :
    (aggAmounts (l.foldl (fun m p => addAgg m p.1 p.2) m)).sum
      = (aggAmounts m).sum + (l.map (fun p => p.2)).sum := by
  induction l generalizing m with
  | nil => simp
  | cons p rest ih => simp [ih, addAgg_amounts_sum]; ring

theorem aggregate_amounts_sum (l : List (String × ℚ)) :
    (aggAmounts (aggregate l)).sum = (l.map (fun p => p.2)).sum := by
  simpa [aggAmounts, aggregate] using aggregate_go_amounts l []

theorem aggregate_go_cats_mem (l : List (String × ℚ)) (m : List (String × Nat × ℚ)) (x : String) :
    x ∈ aggCats (l.foldl (fun m p => addAgg m p.1 p.2) m)
      ↔ x ∈ aggCats m ∨ x ∈ l.map (fun p => p.1) := by
  induction l generalizing m with
  | nil => simp
  | cons p rest ih =>
    simp [ih, addAgg_cats_mem]
    tauto

theorem aggregate_cats_mem (l : List (String × ℚ)) (x : String) :
    x ∈ aggCats (aggregate l) ↔ x ∈ l.map (fun p => p.1) := by
  have := aggregate_go_cats_mem l [] x
  simpa [aggCats, aggregate] using this

theorem aggregate_go_cats_nodup (l : List (String × ℚ)) (m : List (String × Nat × ℚ))
    (h : (aggCats m).Nodup) :
    (aggCats (l.foldl (fun m p => addAgg m p.1 p.2) m)).Nodup := by
  induction l generalizing m with
  | nil => exact h
  | cons p rest ih => exact ih _ (addAgg_cats_nodup _ _ _ h)

theorem aggregate_cats_nodup (l : List (String × ℚ)) :
    (aggCats (aggregate l)).Nodup :=
  aggregate_go_cats_nodup l [] (by simp [aggCats])

/-- The (category, amount) payloads of the revenue events in a list. -/
def revenuePayloads (evs : List Event) : List (String × ℚ) :=
  evs.filterMap (fun ev => match ev with
    | Event.revenue c _ _ _ a => Option.some (c, a)
    | _ => Option.none)

/-- The `order_status` attribute of an event. -/
def eventStatus : Event → String
  | Event.ordersCreated _ s _ _ => s
  | Event.revenue _ s _ _ _ => s

theorem revenuePayloads_emitEvents (agg : List (String × Nat × ℚ)) (s pm cur : String) :
    revenuePayloads (emitEvents agg s pm cur) = agg.map (fun e => (e.1, e.2.2)) := by
  induction agg with
  | nil => rfl
  | cons e rest ih =>
    simp [emitEvents, revenuePayloads] at ih ⊢
    exact ih

theorem eventStatus_emitEvents (agg : List (String × Nat × ℚ)) (s pm cur : String)
    (ev : Event) (h : ev ∈ emitEvents agg s pm cur) : eventStatus ev = s := by
  induction agg with
  | nil => simp [emitEvents] at h
  | cons e rest ih =>
    have hsplit : emitEvents (e :: rest) s pm cur
        = Event.ordersCreated e.1 s pm e.2.1
          :: Event.revenue e.1 s pm cur e.2.2 :: emitEvents rest s pm cur := by
      simp [emitEvents]
    rw [hsplit] at h
    rcases List.mem_cons.mp h with rfl | h
    · rfl
    · rcases List.mem_cons.mp h with rfl | h
      · rfl
      · exact ih h

/-- On the all-succeed path of the transactional calls, `CreateOrder`
commits the inserted rows followed by the cart clear. -/
theorem createOrder_success_state (st : DBState) (f : Faults) (u : Int) (pm cur : String)
    (hb : f.beginTx = false) (hq : f.cartQuery = false) (ho : f.orderInsert = false)
    (hi : f.itemInsert = Option.none) (hc : f.commit = false) (hg : f.getOrder = false)
    (hne : cartSnapshot st u ≠ []) :
    (CreateOrder st f u pm cur).2 = clearCartStep (insertTx st u pm cur) f u := by
  have hne' : (cartSnapshot st u).isEmpty = false := by
    simpa [List.isEmpty_iff] using hne
  unfold CreateOrder
  simp only [hb, hq, ho, hc, hg, hne', itemInsertFails, hi, Bool.false_eq_true, if_false]
  rcases hG : GetOrder (clearCartStep (insertTx st u pm cur) f u) st.nextOrderId with e' | o
  · rfl
  · rfl

/-- On the all-succeed path of the transactional calls, `CreateOrder`
returns successfully. -/
theorem createOrder_success_isOk (st : DBState) (f : Faults) (u : Int) (pm cur : String)
    (hb : f.beginTx = false) (hq : f.cartQuery = false) (ho : f.orderInsert = false)
    (hi : f.itemInsert = Option.none) (hc : f.commit = false) (hg : f.getOrder = false)
    (hne : cartSnapshot st u ≠ []) :
    (CreateOrder st f u pm cur).1.isOk = true := by
  have hne' : (cartSnapshot st u).isEmpty = false := by
    simpa [List.isEmpty_iff] using hne
  unfold CreateOrder
  simp only [hb, hq, ho, hc, hg, hne', itemInsertFails, hi, Bool.false_eq_true, if_false]
  rcases hG : GetOrder (clearCartStep (insertTx st u pm cur) f u) st.nextOrderId with e' | o
  · obtain ⟨o, hok⟩ := GetOrder_insertTx_isOk st f u pm cur
    rw [hok] at hG
    exact absurd hG (by simp)
  · simp [Except.isOk, Except.toBool]

/-- When the fresh order id is genuinely fresh, the post-commit re-read
returns the inserted row, and the emitted events are those of the
snapshot's category aggregate tagged with the pending order's attributes. -/
theorem createOrder_success_result (st : DBState) (f : Faults) (u : Int) (pm cur : String)
    (hb : f.beginTx = false) (hq : f.cartQuery = false) (ho : f.orderInsert = false)
    (hi : f.itemInsert = Option.none) (hc : f.commit = false) (hg : f.getOrder = false)
    (hne : cartSnapshot st u ≠ [])
    (hfresh : ∀ o ∈ st.orders, o.id ≠ st.nextOrderId) :
    (CreateOrder st f u pm cur).1 =
      Except.ok (⟨st.nextOrderId, u, "pending", pm, orderTotal (cartSnapshot st u), cur⟩,
        emitEvents
          (aggregate ((cartSnapshot st u).map
            (fun it => (itemCategory st f.catQuery it.productId, it.price * (it.quantity : ℚ)))))
          "pending" pm cur) := by
  have hne' : (cartSnapshot st u).isEmpty = false := by
    simpa [List.isEmpty_iff] using hne
  have hfind : (clearCartStep (insertTx st u pm cur) f u).orders.find?
      (fun o => o.id == st.nextOrderId)
      = Option.some ⟨st.nextOrderId, u, "pending", pm, orderTotal (cartSnapshot st u), cur⟩ := by
    rw [clearCartStep_orders]
    show (st.orders ++ [(⟨st.nextOrderId, u, "pending", pm,
        orderTotal (cartSnapshot st u), cur⟩ : OrderRow)]).find? _ = _
    rw [List.find?_append]
    have h1 : st.orders.find? (fun o => o.id == st.nextOrderId) = Option.none := by
      rw [List.find?_eq_none]
      intro o ho
      simpa using hfresh o ho
    rw [h1]
    simp
  have hG : GetOrder (clearCartStep (insertTx st u pm cur) f u) st.nextOrderId
      = Except.ok ⟨st.nextOrderId, u, "pending", pm, orderTotal (cartSnapshot st u), cur⟩ := by
    unfold GetOrder
    rw [hfind]
  unfold CreateOrder
  simp only [hb, hq, ho, hc, hg, hne', itemInsertFails, hi, Bool.false_eq_true, if_false]
  rw [hG]
  simp only [List.map_map]
  rfl

theorem find?_of_filter_singleton {α : Type _} (p : α → Bool) (l : List α) (a : α)
    (h : l.filter p = [a]) : l.find? p = Option.some a := by
  induction l with
  | nil => simp at h
  | cons x rest ih =>
    by_cases hx : p x
    · rw [List.filter_cons_of_pos hx] at h
      injection h with h1 h2
      subst h1
      exact List.find?_cons_of_pos _ hx
    · rw [List.filter_cons_of_neg hx] at h
      rw [List.find?_cons_of_neg _ hx]
      exact ih h

theorem any_map_of_pres {α : Type _} (l : List α) (g : α → α) (p : α → Bool)
    (h : ∀ x, p (g x) = p x) : (l.map g).any p = l.any p := by
  induction l with
  | nil => rfl
  | cons x rest ih => simp [h, ih]

/-- The order-row rewrite performed by the status UPDATE. -/
def setStatus (oid : Int) (s : String) (o : OrderRow) : OrderRow :=
  if o.id == oid then { o with status := s } else o

theorem setStatus_id (oid : Int) (s : String) (o : OrderRow) :
    (setStatus oid s o).id = o.id := by
  unfold setStatus
  split_ifs <;> rfl

theorem find?_map_setStatus (l : List OrderRow) (oid : Int) (s : String) :
    (l.map (setStatus oid s)).find? (fun o => o.id == oid)
      = (l.find? (fun o => o.id == oid)).map (setStatus oid s) := by
  induction l with
  | nil => rfl
  | cons x rest ih =>
    by_cases h : x.id = oid
    · have hb : (x.id == oid) = true := beq_iff_eq.mpr h
      have hx : ((setStatus oid s x).id == oid) = true := by rw [setStatus_id]; exact hb
      simp [List.find?_cons, hx, hb]
    · have hb : (x.id == oid) = false := beq_eq_false_iff_ne.mpr h
      have hx : ((setStatus oid s x).id == oid) = false := by rw [setStatus_id]; exact hb
      simp [List.find?_cons, hx, hb, ih]

theorem updateOrderStatus_isOk (st : DBState) (oid : Int) (s : String)
    (hs : s ∈ validStatuses) (hex : st.orders.any (fun o => o.id == oid) = true) :
    (UpdateOrderStatus st noUFaults oid s).1.isOk = true := by
  have hm : ((st.orders.filter (fun o => o.id == oid)).length == 0) = false := by
    rcases List.any_eq_true.mp hex with ⟨o, ho, hp⟩
    have hmem : o ∈ st.orders.filter (fun o => o.id == oid) := List.mem_filter.mpr ⟨ho, hp⟩
    rcases hq : st.orders.filter (fun o => o.id == oid) with _ | ⟨y, ys⟩
    · rw [hq] at hmem; simp at hmem
    · simp [hq]
  simp [UpdateOrderStatus, noUFaults, hs, hm, Except.isOk, Except.toBool]
  split_ifs <;> try rfl
  all_goals split <;> try rfl
  all_goals rename_i heq
  all_goals split at heq <;> simp_all

theorem updateOrderStatus_state_orders (st : DBState) (oid : Int) (s : String)
    (hs : s ∈ validStatuses) :
    ((UpdateOrderStatus st noUFaults oid s).2).orders
      = st.orders.map (setStatus oid s) := by
  unfold UpdateOrderStatus
  rw [if_neg (by simp [hs])]
  simp only [noUFaults, Bool.false_eq_true, if_false]
  split_ifs <;> try rfl
  all_goals split <;> rfl

theorem updateOrderStatus_any_pres (st : DBState) (oid : Int) (s : String)
    (hs : s ∈ validStatuses) :
    ((UpdateOrderStatus st noUFaults oid s).2).orders.any (fun o => o.id == oid)
      = st.orders.any (fun o => o.id == oid) := by
  rw [updateOrderStatus_state_orders st oid s hs]
  exact any_map_of_pres _ _ _ (fun x => by rw [setStatus_id])

theorem GetOrder_eq (tx : DBState) (oid : Int) :
    GetOrder tx oid = match tx.orders.find? (fun o => o.id == oid) with
      | Option.none => Except.error Err.orderNotFound
      | Option.some o => Except.ok o := rfl

theorem orderItemsWithCategory_orders_irrel (st : DBState) (X : List OrderRow) (oid : Int) :
    orderItemsWithCategory { st with orders := X } oid = orderItemsWithCategory st oid := rfl

/-- The completed-status side effect: the events emitted by a successful
`UpdateOrderStatus(id, "completed")`. -/
theorem updateOrderStatus_completed_events (st : DBState) (oid : Int) (o : OrderRow)
    (hfind : st.orders.find? (fun x => x.id == oid) = Option.some o) :
    (UpdateOrderStatus st noUFaults oid "completed").1 =
      Except.ok (emitEvents
        (aggregate ((orderItemsWithCategory st oid).map
          (fun it => (it.category, it.price * (it.quantity : ℚ)))))
        "completed" o.paymentMethod o.currency) := by
  have ho : (o.id == oid) = true := by
    have h := List.find?_some hfind
    simpa using h
  have homem : o ∈ st.orders := List.mem_of_find?_eq_some hfind
  have hm : ((st.orders.filter (fun x => x.id == oid)).length == 0) = false := by
    have hmem : o ∈ st.orders.filter (fun x => x.id == oid) := List.mem_filter.mpr ⟨homem, ho⟩
    rcases hq : st.orders.filter (fun x => x.id == oid) with _ | ⟨y, ys⟩
    · rw [hq] at hmem; simp at hmem
    · simp [hq]
  have hG : GetOrder { st with orders := st.orders.map (setStatus oid "completed") } oid
      = Except.ok { o with status := "completed" } := by
    rw [GetOrder_eq]
    show (match (st.orders.map (setStatus oid "completed")).find? (fun x => x.id == oid) with
      | Option.none => Except.error Err.orderNotFound
      | Option.some o => Except.ok o) = _
    rw [find?_map_setStatus, hfind]
    simp [setStatus, ho]
  unfold UpdateOrderStatus
  rw [if_neg (by simp [validStatuses])]
  simp only [noUFaults, Bool.false_eq_true, if_false]
  rw [if_neg (by simp [hm])]
  rw [if_neg (by simp)]
  rw [show (fun x : OrderRow => if x.id == oid then { x with status := "completed" } else x)
      = setStatus oid "completed" from rfl]
  rw [hG]
  simp [orderItemsWithCategory_orders_irrel]

/-! ### Concrete states for counterexamples and witnesses -/

/-- A store with one product, one cart for user 1 holding two units of the
product, and no orders. -/
def exampleState : DBState :=
  { products := [⟨1, "widget", "a widget", 5, "widgets", "SKU1"⟩],
    carts := [⟨10, 1⟩],
    cartItems := [⟨100, 10, 1, 2⟩],
    orders := [],
    orderItems := [],
    nextOrderId := 1,
    nextCartId := 11,
    nextCartItemId := 101 }

/-- The same store with the cart emptied. -/
def exampleEmptyCart : DBState := { exampleState with cartItems := [] }

/-- A fault assignment where only the step-6 cart-id lookup fails. -/
def step6Fault : Faults := { noFaults with cartIdLookup := true }

/-- A fault assignment where only the step-2 cart-snapshot read fails. -/
def cartQueryFault : Faults := { noFaults with cartQuery := true }

/-! ### Claims -/

/-- C1, counterexample.  A store error in step 6 of `CreateOrder` (the
cart-id lookup of the cart-clear block) does not abort the operation: on
this one-item store the call still returns `ok`, the order row is
persisted, and the cart items are left in place — contradicting the claim
that every store error during steps 2–7 rolls back and is surfaced. -/
theorem C1_counterexample :
    (CreateOrder exampleState step6Fault 1 "paypal" "USD").1 =
      Except.ok (⟨1, 1, "pending", "paypal", 10, "USD"⟩,
        [Event.ordersCreated "widgets" "pending" "paypal" 1,
         Event.revenue "widgets" "pending" "paypal" "USD" 10])
    ∧ (CreateOrder exampleState step6Fault 1 "paypal" "USD").2.cartItems
        = exampleState.cartItems
    ∧ (CreateOrder exampleState step6Fault 1 "paypal" "USD").2.orders.length = 1 := by
  norm_num [CreateOrder, exampleState, step6Fault, noFaults, cartSnapshot, orderTotal,
    itemCategory, itemInsertFails, insertTx, clearCartStep, GetOrder, aggregate, addAgg,
    emitEvents, List.find?, List.filterMap, List.foldl, List.flatMap]
  decide

/-- C1, amended.  Every store error of `CreateOrder` that is surfaced
before the post-commit re-read (steps 1–5 and 7: begin, cart-snapshot
read, order insert, order-item inserts, commit — and the empty-cart
check) aborts with the transaction fully rolled back: the returned state
is the input state.  A failure of the step-6 cart-id lookup or cart-items
delete, however, is swallowed: when everything else succeeds the
operation still reports success, the order row and its items are
committed, and the cart is left uncleared. -/
theorem C1_amended (st : DBState) (f : Faults) (u : Int) (pm cur : String)
    (hg : f.getOrder = false) :
    (∀ e, (CreateOrder st f u pm cur).1 = Except.error e →
        (CreateOrder st f u pm cur).2 = st)
    ∧ (f.beginTx = false → f.cartQuery = false → f.orderInsert = false →
        f.itemInsert = Option.none → f.commit = false →
        (f.cartIdLookup = true ∨ f.cartDelete = true) →
        cartSnapshot st u ≠ [] →
        (CreateOrder st f u pm cur).1.isOk = true
        ∧ (CreateOrder st f u pm cur).2.cartItems = st.cartItems
        ∧ (CreateOrder st f u pm cur).2.orders = st.orders ++
            [⟨st.nextOrderId, u, "pending", pm, orderTotal (cartSnapshot st u), cur⟩]) :=
  ⟨createOrder_error_rollback st f u pm cur hg,
   fun hb hq ho hi hc h6 hne =>
     createOrder_step6_swallowed st f u pm cur hb hq ho hi hc hg h6 hne⟩

/-- C1, witness: the amended theorem applied to the one-item store, once
with a failing cart-snapshot read (rolled back to the input state) and
once with the failing step-6 lookup (operation still succeeds). -/
theorem C1_amended_witness :
    (CreateOrder exampleState cartQueryFault 1 "paypal" "USD").2 = exampleState
    ∧ (CreateOrder exampleState step6Fault 1 "paypal" "USD").1.isOk = true := by
  constructor
  · exact (C1_amended exampleState cartQueryFault 1 "paypal" "USD" rfl).1
      Err.getCartItems rfl
  · exact ((C1_amended exampleState step6Fault 1 "paypal" "USD" rfl).2
      rfl rfl rfl rfl rfl (Or.inl rfl) (by decide)).1

/-- C2.  For every user whose cart snapshot has zero items, `CreateOrder`
(with all store calls succeeding) fails with the empty-cart error and
returns the store unchanged: no Order row, no OrderItem row, and no cart
mutation. -/
theorem C2_empty_cart (st : DBState) (u : Int) (pm cur : String)
    (h : cartSnapshot st u = []) :
    CreateOrder st noFaults u pm cur = (Except.error Err.emptyCart, st) := by
  simp [CreateOrder, noFaults, h]

/-- C2, witness at a store whose user-1 cart exists but holds no items. -/
theorem C2_empty_cart_witness :
    CreateOrder exampleEmptyCart noFaults 1 "paypal" "USD"
      = (Except.error Err.emptyCart, exampleEmptyCart) :=
  C2_empty_cart exampleEmptyCart 1 "paypal" "USD" rfl

/-- C5.  For every status string outside the six recognized labels,
`UpdateOrderStatus` returns the invalid-status error and performs no
store write, whatever the fault assignment: the state is returned
unchanged, so every order's stored status is unchanged. -/
theorem C5_invalid_status (st : DBState) (f : UFaults) (oid : Int) (s : String)
    (h : s ∉ validStatuses) :
    UpdateOrderStatus st f oid s = (Except.error Err.invalidStatus, st) := by
  simp [UpdateOrderStatus, h]

/-- C5, witness with the unrecognized label `"refunded"`. -/
theorem C5_invalid_status_witness :
    UpdateOrderStatus exampleState noUFaults 7 "refunded"
      = (Except.error Err.invalidStatus, exampleState) :=
  C5_invalid_status exampleState noUFaults 7 "refunded" (by decide)

/-- C8.  For every cache state, product id and product value, a `Get` at
any instant strictly before `Put`-time plus the 5-minute TTL returns the
stored product (hit), and a `Get` at or after that instant misses, with
no explicit invalidation involved. -/
theorem C8_cache_ttl (c : Cache) (id : Int) (p : ProductRow) (t₀ t₁ : Int) :
    (t₁ < t₀ + cacheTTL → cacheGet (cachePut c t₀ id p) t₁ id = Option.some p)
    ∧ (t₀ + cacheTTL ≤ t₁ → cacheGet (cachePut c t₀ id p) t₁ id = Option.none) := by
  constructor <;> intro h <;> simp [cacheGet, cachePut, h]

/-- C8, witness: the empty cache, a put at time 0, a hit one second
later and a miss exactly at the TTL boundary. -/
theorem C8_cache_ttl_witness :
    cacheGet (cachePut (fun _ => Option.none) 0 1
        ⟨1, "widget", "a widget", 5, "widgets", "SKU1"⟩) 1000000000 1
      = Option.some ⟨1, "widget", "a widget", 5, "widgets", "SKU1"⟩
    ∧ cacheGet (cachePut (fun _ => Option.none) 0 1
        ⟨1, "widget", "a widget", 5, "widgets", "SKU1"⟩) 300000000000 1
      = Option.none :=
  ⟨(C8_cache_ttl (fun _ => Option.none) 1 ⟨1, "widget", "a widget", 5, "widgets", "SKU1"⟩
      0 1000000000).1 (by decide),
   (C8_cache_ttl (fun _ => Option.none) 1 ⟨1, "widget", "a widget", 5, "widgets", "SKU1"⟩
      0 300000000000).2 (by decide)⟩

theorem insertTx_carts (st : DBState) (u : Int) (pm cur : String) :
    (insertTx st u pm cur).carts = st.carts := rfl

theorem insertTx_cartItems (st : DBState) (u : Int) (pm cur : String) :
    (insertTx st u pm cur).cartItems = st.cartItems := rfl

theorem insertTx_orders (st : DBState) (u : Int) (pm cur : String) :
    (insertTx st u pm cur).orders = st.orders ++
      [⟨st.nextOrderId, u, "pending", pm, orderTotal (cartSnapshot st u), cur⟩] := rfl

theorem insertTx_orderItems (st : DBState) (u : Int) (pm cur : String) :
    (insertTx st u pm cur).orderItems = st.orderItems ++
      (cartSnapshot st u).map (fun it => ⟨st.nextOrderId, it.productId, it.quantity, it.price⟩)
    := rfl

/-- C3.  For every cart whose snapshot has N ≥ 1 items, `CreateOrder`
with all store calls succeeding returns success, appends exactly one
Order row whose `total_amount` is the sum of price × quantity over the
snapshot, and appends exactly N OrderItem rows, one per snapshot line,
each carrying the snapshot's unit price and quantity. -/
theorem C3_success_rows (st : DBState) (u : Int) (pm cur : String)
    (hne : cartSnapshot st u ≠ []) :
    (CreateOrder st noFaults u pm cur).1.isOk = true
    ∧ (CreateOrder st noFaults u pm cur).2.orders =
        st.orders ++ [⟨st.nextOrderId, u, "pending", pm, orderTotal (cartSnapshot st u), cur⟩]
    ∧ (CreateOrder st noFaults u pm cur).2.orderItems =
        st.orderItems ++ (cartSnapshot st u).map
          (fun it => ⟨st.nextOrderId, it.productId, it.quantity, it.price⟩)
    ∧ (CreateOrder st noFaults u pm cur).2.orders.length = st.orders.length + 1
    ∧ (CreateOrder st noFaults u pm cur).2.orderItems.length
        = st.orderItems.length + (cartSnapshot st u).length
    ∧ orderTotal (cartSnapshot st u)
        = ((cartSnapshot st u).map (fun it => it.price * (it.quantity : ℚ))).sum := by
  have hok := createOrder_success_isOk st noFaults u pm cur rfl rfl rfl rfl rfl rfl hne
  have hst := createOrder_success_state st noFaults u pm cur rfl rfl rfl rfl rfl rfl hne
  have ho : (CreateOrder st noFaults u pm cur).2.orders =
      st.orders ++ [⟨st.nextOrderId, u, "pending", pm, orderTotal (cartSnapshot st u), cur⟩] := by
    rw [hst, clearCartStep_orders, insertTx_orders]
  have hoi : (CreateOrder st noFaults u pm cur).2.orderItems =
      st.orderItems ++ (cartSnapshot st u).map
        (fun it => ⟨st.nextOrderId, it.productId, it.quantity, it.price⟩) := by
    rw [hst, clearCartStep_orderItems, insertTx_orderItems]
  refine ⟨hok, ho, hoi, ?_, ?_, rfl⟩
  · rw [ho]; simp
  · rw [hoi]; simp

/-- C3, witness at the one-item store: one Order row and one OrderItem
row are appended. -/
theorem C3_success_rows_witness :
    (CreateOrder exampleState noFaults 1 "paypal" "USD").2.orders.length
      = exampleState.orders.length + 1
    ∧ (CreateOrder exampleState noFaults 1 "paypal" "USD").2.orderItems.length
      = exampleState.orderItems.length + (cartSnapshot exampleState 1).length :=
  ⟨(C3_success_rows exampleState 1 "paypal" "USD" (by decide)).2.2.2.1,
   (C3_success_rows exampleState 1 "paypal" "USD" (by decide)).2.2.2.2.1⟩

/-- C4, counterexample.  Not every successful `CreateOrder` leaves the
user's cart with zero items: with only the step-6 cart-id lookup failing
(an error `err = tx.Commit()` then overwrites), the call on the one-item
store still reports success, yet afterwards the cart-item row pointing at
user 1's cart (id 10, which is still present) remains. -/
theorem C4_counterexample :
    (CreateOrder exampleState step6Fault 1 "paypal" "USD").1.isOk = true
    ∧ (⟨10, 1⟩ : CartRow) ∈ (CreateOrder exampleState step6Fault 1 "paypal" "USD").2.carts
    ∧ (⟨100, 10, 1, 2⟩ : CartItemRow)
        ∈ (CreateOrder exampleState step6Fault 1 "paypal" "USD").2.cartItems := by
  have hsw := createOrder_step6_swallowed exampleState step6Fault 1 "paypal" "USD"
    rfl rfl rfl rfl rfl rfl (Or.inl rfl) (by decide)
  have hst := createOrder_success_state exampleState step6Fault 1 "paypal" "USD"
    rfl rfl rfl rfl rfl rfl (by decide)
  refine ⟨hsw.1, ?_, ?_⟩
  · rw [hst, clearCartStep_carts, insertTx_carts]
    decide
  · rw [hsw.2.1]
    decide

/-- C4, amended.  When the user owns exactly one cart row, a successful
`CreateOrder` whose step-6 cart-clear block itself succeeded (the
all-calls-succeed run) leaves that user's cart with zero items — no
remaining cart-item row points at any cart of the user — while the cart
row itself is still present, only the items being deleted.  But a
`CreateOrder` can also succeed with the step-6 cart-id lookup or
cart-items delete failing; such a run leaves every cart-item row intact
(the cart row again retained). -/
theorem C4_amended (st : DBState) (u : Int) (pm cur : String) (c₀ : CartRow)
    (hne : cartSnapshot st u ≠ [])
    (hcart : st.carts.filter (fun c => c.userId == u) = [c₀]) :
    ((∀ ci ∈ (CreateOrder st noFaults u pm cur).2.cartItems,
        ∀ c ∈ (CreateOrder st noFaults u pm cur).2.carts, c.userId = u → ci.cartId ≠ c.id)
      ∧ c₀ ∈ (CreateOrder st noFaults u pm cur).2.carts)
    ∧ ∀ f : Faults, f.beginTx = false → f.cartQuery = false → f.orderInsert = false →
        f.itemInsert = Option.none → f.commit = false → f.getOrder = false →
        (f.cartIdLookup = true ∨ f.cartDelete = true) →
        (CreateOrder st f u pm cur).1.isOk = true
        ∧ (CreateOrder st f u pm cur).2.cartItems = st.cartItems
        ∧ c₀ ∈ (CreateOrder st f u pm cur).2.carts := by
  have hc₀mem : c₀ ∈ st.carts := by
    have : c₀ ∈ st.carts.filter (fun c => c.userId == u) := by
      rw [hcart]; exact List.mem_singleton_self c₀
    exact List.mem_of_mem_filter this
  constructor
  · have hst := createOrder_success_state st noFaults u pm cur rfl rfl rfl rfl rfl rfl hne
    have hfind : st.carts.find? (fun c => c.userId == u) = Option.some c₀ :=
      find?_of_filter_singleton _ _ _ hcart
    have hclear : clearCartStep (insertTx st u pm cur) noFaults u
        = { insertTx st u pm cur with
            cartItems := st.cartItems.filter (fun ci => ¬ ci.cartId == c₀.id) } := by
      unfold clearCartStep
      rw [show (insertTx st u pm cur).carts.find? (fun c => c.userId == u)
          = Option.some c₀ from by rw [insertTx_carts]; exact hfind]
      simp [noFaults, insertTx_cartItems]
    have hitems : (CreateOrder st noFaults u pm cur).2.cartItems
        = st.cartItems.filter (fun ci => ¬ ci.cartId == c₀.id) := by
      rw [hst, hclear]
    have hcarts : (CreateOrder st noFaults u pm cur).2.carts = st.carts := by
      rw [hst, clearCartStep_carts, insertTx_carts]
    constructor
    · intro ci hci c hc hcu
      rw [hitems] at hci
      have hnot : ¬ ci.cartId == c₀.id := by
        have := List.of_mem_filter hci
        simpa using this
      rw [hcarts] at hc
      have hcmem : c ∈ st.carts.filter (fun c => c.userId == u) :=
        List.mem_filter.mpr ⟨hc, by simpa using hcu⟩
      rw [hcart, List.mem_singleton] at hcmem
      subst hcmem
      intro hid
      exact hnot (by simpa using hid)
    · rw [hcarts]
      exact hc₀mem
  · intro f hb hq ho hi hcm hg h6
    have hsw := createOrder_step6_swallowed st f u pm cur hb hq ho hi hcm hg h6 hne
    have hst := createOrder_success_state st f u pm cur hb hq ho hi hcm hg hne
    refine ⟨hsw.1, hsw.2.1, ?_⟩
    rw [hst, clearCartStep_carts, insertTx_carts]
    exact hc₀mem

/-- C4, witness at the one-item store, whose user 1 owns exactly the cart
with id 10: the clean run retains the cart row, and the run with the
failing step-6 lookup succeeds while leaving the cart items unchanged. -/
theorem C4_amended_witness :
    (⟨10, 1⟩ : CartRow) ∈ (CreateOrder exampleState noFaults 1 "paypal" "USD").2.carts
    ∧ (CreateOrder exampleState step6Fault 1 "paypal" "USD").2.cartItems
        = exampleState.cartItems :=
  ⟨(C4_amended exampleState 1 "paypal" "USD" ⟨10, 1⟩ (by decide) (by decide)).1.2,
   ((C4_amended exampleState 1 "paypal" "USD" ⟨10, 1⟩ (by decide) (by decide)).2 step6Fault
      rfl rfl rfl rfl rfl rfl (Or.inl rfl)).2.1⟩

/-- C6.  For every store holding an order with the given id and every
pair of valid status labels, two consecutive `UpdateOrderStatus` calls
both succeed, whatever the starting status — no transition graph is
enforced beyond membership in the six labels, so e.g. "shipped" followed
by "pending" is accepted. -/
theorem C6_any_transition (st : DBState) (oid : Int) (s₁ s₂ : String)
    (h1 : s₁ ∈ validStatuses) (h2 : s₂ ∈ validStatuses)
    (hex : st.orders.any (fun o => o.id == oid) = true) :
    (UpdateOrderStatus st noUFaults oid s₁).1.isOk = true
    ∧ (UpdateOrderStatus (UpdateOrderStatus st noUFaults oid s₁).2 noUFaults oid s₂).1.isOk
        = true := by
  refine ⟨updateOrderStatus_isOk st oid s₁ h1 hex, ?_⟩
  apply updateOrderStatus_isOk _ oid s₂ h2
  rw [updateOrderStatus_any_pres st oid s₁ h1]
  exact hex

/-- A store holding one pending order for user 1. -/
def exampleWithOrder : DBState :=
  { exampleState with
    orders := [⟨1, 1, "pending", "paypal", 10, "USD"⟩],
    nextOrderId := 2 }

/-- C6, witness: setting order 1 to "shipped" and then back to "pending"
both succeed. -/
theorem C6_any_transition_witness :
    (UpdateOrderStatus exampleWithOrder noUFaults 1 "shipped").1.isOk = true
    ∧ (UpdateOrderStatus (UpdateOrderStatus exampleWithOrder noUFaults 1 "shipped").2
        noUFaults 1 "pending").1.isOk = true :=
  C6_any_transition exampleWithOrder 1 "shipped" "pending" (by decide) (by decide) (by decide)

/-- C7.  For every store holding an order (found by id) whose
`total_amount` equals the sum of price × quantity over its order items
joined with products, `UpdateOrderStatus(id, "completed")` succeeds and
emits exactly one revenue event per distinct product category among the
order's items — the emitted categories are duplicate-free and are exactly
the items' categories — with the revenue amounts (computed from the
per-item prices captured at order creation) summing to the order's
original `total_amount`, every event tagged with status "completed". -/
theorem C7_completed_revenue (st : DBState) (oid : Int) (o : OrderRow)
    (hfind : st.orders.find? (fun x => x.id == oid) = Option.some o)
    (hsum : o.totalAmount = ((orderItemsWithCategory st oid).map
        (fun it => it.price * (it.quantity : ℚ))).sum) :
    ∃ evs, (UpdateOrderStatus st noUFaults oid "completed").1 = Except.ok evs
      ∧ ((revenuePayloads evs).map (fun p => p.1)).Nodup
      ∧ (∀ c, c ∈ (revenuePayloads evs).map (fun p => p.1)
          ↔ c ∈ (orderItemsWithCategory st oid).map (fun it => it.category))
      ∧ ((revenuePayloads evs).map (fun p => p.2)).sum = o.totalAmount
      ∧ ∀ ev ∈ evs, eventStatus ev = "completed" := by
  have hres := updateOrderStatus_completed_events st oid o hfind
  refine ⟨_, hres, ?_, ?_, ?_, ?_⟩
  · rw [revenuePayloads_emitEvents, List.map_map]
    exact aggregate_cats_nodup _
  · intro c
    rw [revenuePayloads_emitEvents, List.map_map]
    have h := aggregate_cats_mem ((orderItemsWithCategory st oid).map
      (fun it => (it.category, it.price * (it.quantity : ℚ)))) c
    rw [List.map_map] at h
    exact h
  · rw [revenuePayloads_emitEvents, List.map_map]
    have h := aggregate_amounts_sum ((orderItemsWithCategory st oid).map
      (fun it => (it.category, it.price * (it.quantity : ℚ))))
    rw [List.map_map] at h
    rw [hsum]
    exact h
  · intro ev hev
    exact eventStatus_emitEvents _ _ _ _ ev hev

/-- A store holding one completed-ready order: order 1 for user 1 with a
single order item of quantity 1 at price 10. -/
def exampleCompleted : DBState :=
  { products := [⟨1, "widget", "a widget", 5, "widgets", "SKU1"⟩],
    carts := [],
    cartItems := [],
    orders := [⟨1, 1, "pending", "paypal", 10, "USD"⟩],
    orderItems := [⟨1, 1, 1, 10⟩],
    nextOrderId := 2,
    nextCartId := 1,
    nextCartItemId := 1 }

/-- C7, witness: completing order 1 of the one-item order store. -/
theorem C7_completed_revenue_witness :
    ∃ evs, (UpdateOrderStatus exampleCompleted noUFaults 1 "completed").1 = Except.ok evs
      ∧ ((revenuePayloads evs).map (fun p => p.1)).Nodup
      ∧ (∀ c, c ∈ (revenuePayloads evs).map (fun p => p.1)
          ↔ c ∈ (orderItemsWithCategory exampleCompleted 1).map (fun it => it.category))
      ∧ ((revenuePayloads evs).map (fun p => p.2)).sum
          = (⟨1, 1, "pending", "paypal", 10, "USD"⟩ : OrderRow).totalAmount
      ∧ ∀ ev ∈ evs, eventStatus ev = "completed" :=
  C7_completed_revenue exampleCompleted 1 ⟨1, 1, "pending", "paypal", 10, "USD"⟩
    (by decide)
    (by simp [orderItemsWithCategory, exampleCompleted])

theorem aggregate_const_go (l : List ℚ) (c : String) (n : Nat) (s : ℚ) :
    (l.map (fun a => (c, a))).foldl (fun m p => addAgg m p.1 p.2) [(c, n, s)]
      = [(c, n + l.length, s + l.sum)] := by
  induction l generalizing n s with
  | nil => simp
  | cons a rest ih =>
    rw [List.map_cons, List.foldl_cons]
    have hstep : addAgg [(c, n, s)] c a = [(c, n + 1, s + a)] := by simp [addAgg]
    rw [hstep, ih]
    simp only [List.cons.injEq, Prod.mk.injEq, List.length_cons, List.sum_cons, and_true,
      true_and]
    constructor
    · omega
    · ring

/-- Aggregating a nonempty list of amounts that all carry the same
category yields a single entry holding the line count and the total. -/
theorem aggregate_const (l : List ℚ) (c : String) (h : l ≠ []) :
    aggregate (l.map (fun a => (c, a))) = [(c, l.length, l.sum)] := by
  rcases l with _ | ⟨a, rest⟩
  · exact absurd rfl h
  · show ((a :: rest).map (fun a => (c, a))).foldl (fun m p => addAgg m p.1 p.2) []
        = [(c, (a :: rest).length, (a :: rest).sum)]
    rw [List.map_cons, List.foldl_cons]
    have hstep : addAgg ([] : List (String × Nat × ℚ)) c a = [(c, 1, a)] := by simp [addAgg]
    rw [hstep, aggregate_const_go]
    simp only [List.cons.injEq, Prod.mk.injEq, List.length_cons, List.sum_cons, and_true,
      true_and]
    omega

/-- A fault assignment where only the non-transactional category query
fails. -/
def catQueryFail : Faults :=
  ⟨false, false, true, false, Option.none, false, false, false, false⟩

/-- C10.  A failure of the separate non-transactional category lookup in
`CreateOrder` never fails the operation: with the category query erroring
(and a fresh order id), the committed state is identical to the
fault-free run's state, the call succeeds, the order carries the same
`total_amount`, and the emitted events aggregate every item under the
single category label "unknown" — whose revenue equals the full order
total.  Likewise, a product row that is missing or carries an empty
category resolves to the label "unknown". -/
theorem C10_category_lookup_nonfatal (st : DBState) (u : Int) (pm cur : String)
    (hne : cartSnapshot st u ≠ [])
    (hfresh : ∀ o ∈ st.orders, o.id ≠ st.nextOrderId) :
    (CreateOrder st catQueryFail u pm cur).2
        = (CreateOrder st noFaults u pm cur).2
    ∧ (CreateOrder st catQueryFail u pm cur).1
        = Except.ok (⟨st.nextOrderId, u, "pending", pm, orderTotal (cartSnapshot st u), cur⟩,
            [Event.ordersCreated "unknown" "pending" pm (cartSnapshot st u).length,
             Event.revenue "unknown" "pending" pm cur (orderTotal (cartSnapshot st u))])
    ∧ (∀ pid, st.products.find? (fun p => p.id == pid) = Option.none →
          itemCategory st false pid = "unknown")
    ∧ (∀ pid p, st.products.find? (fun q => q.id == pid) = Option.some p → p.category = "" →
          itemCategory st false pid = "unknown") := by
  refine ⟨?_, ?_, ?_, ?_⟩
  · rw [createOrder_success_state st catQueryFail u pm cur
        rfl rfl rfl rfl rfl rfl hne,
      createOrder_success_state st noFaults u pm cur rfl rfl rfl rfl rfl rfl hne]
    rfl
  · have hres := createOrder_success_result st catQueryFail u pm cur
      rfl rfl rfl rfl rfl rfl hne hfresh
    rw [hres]
    have hmap : (cartSnapshot st u).map
        (fun it => (itemCategory st catQueryFail.catQuery it.productId,
          it.price * (it.quantity : ℚ)))
        = ((cartSnapshot st u).map (fun it => it.price * (it.quantity : ℚ))).map
            (fun a => ("unknown", a)) := by
      rw [List.map_map]
      rfl
    rw [hmap, aggregate_const _ _ (by simpa using hne)]
    simp [emitEvents, orderTotal]
  · intro pid hp
    simp [itemCategory, hp]
  · intro pid p hp hcat
    simp [itemCategory, hp, hcat]

/-- C10, witness: on the one-item store, the run with the failing
category query commits exactly the same state as the fault-free run. -/
theorem C10_category_lookup_nonfatal_witness :
    (CreateOrder exampleState catQueryFail 1 "paypal" "USD").2
      = (CreateOrder exampleState noFaults 1 "paypal" "USD").2 :=
  (C10_category_lookup_nonfatal exampleState 1 "paypal" "USD" (by decide) (by decide)).1

/-- A store with a product catalog but no cart rows at all. -/
def exampleNoCart : DBState :=
  { products := [],
    carts := [],
    cartItems := [],
    orders := [],
    orderItems := [],
    nextOrderId := 1,
    nextCartId := 5,
    nextCartItemId := 1 }

/-- C9, counterexample.  Adding a product that does not exist in the
catalog does not fail "before any cart write": when the user has no cart
yet, `AddToCart` first runs the get-or-create step, which inserts a cart
row, and only then fails with the product-not-found error — the failed
call has persisted a new `carts` row. -/
theorem C9_counterexample :
    (AddToCart exampleNoCart 1 99 2).1 = Except.error Err.productNotFound
    ∧ (AddToCart exampleNoCart 1 99 2).2.carts = [⟨5, 1⟩]
    ∧ exampleNoCart.carts = [] := by
  decide

/-- C9, amended.  With the user's cart resolved to `c₀`: adding a product
absent from the catalog fails with the product-not-found error and
writes no cart-item row (though the get-or-create step may have inserted
a cart row first); adding a product already in the cart in exactly one
row of quantity q leaves exactly one row for the (cart, product) pair,
now of quantity q + d, without changing the number of cart-item rows;
and adding a product not yet in the cart appends a single new row with
quantity d. -/
theorem C9_amended (st : DBState) (u pid d : Int) (c₀ : CartRow)
    (hc : st.carts.find? (fun c => c.userId == u) = Option.some c₀) :
    (productExists st pid = false →
        (AddToCart st u pid d).1 = Except.error Err.productNotFound
        ∧ (AddToCart st u pid d).2.cartItems = st.cartItems)
    ∧ (∀ r, productExists st pid = true →
        st.cartItems.filter (fun ci => ci.cartId == c₀.id && ci.productId == pid) = [r] →
        (AddToCart st u pid d).1 = Except.ok ()
        ∧ (AddToCart st u pid d).2.cartItems.filter
            (fun ci => ci.cartId == c₀.id && ci.productId == pid)
            = [{ r with quantity := r.quantity + d }]
        ∧ (AddToCart st u pid d).2.cartItems.length = st.cartItems.length)
    ∧ (productExists st pid = true →
        st.cartItems.filter (fun ci => ci.cartId == c₀.id && ci.productId == pid) = [] →
        (AddToCart st u pid d).1 = Except.ok ()
        ∧ (AddToCart st u pid d).2.cartItems
            = st.cartItems ++ [⟨st.nextCartItemId, c₀.id, pid, d⟩]) := by
  have hget : GetOrCreateCart st u = (c₀, st) := by
    unfold GetOrCreateCart
    rw [hc]
  refine ⟨?_, ?_, ?_⟩
  · intro hp
    unfold AddToCart
    rw [hget]
    simp [hp]
  · intro r hp hrow
    have hfindci : st.cartItems.find? (fun ci => ci.cartId == c₀.id && ci.productId == pid)
        = Option.some r := find?_of_filter_singleton _ _ _ hrow
    have hrmem : r ∈ st.cartItems := List.mem_of_find?_eq_some hfindci
    have hrq : (r.cartId == c₀.id && r.productId == pid) = true := by
      have h := List.find?_some hfindci
      simpa using h
    unfold AddToCart
    rw [hget]
    simp only [hp, not_true, Bool.not_true, Bool.false_eq_true, if_false, ite_false, hfindci]
    refine ⟨trivial, ?_, by simp⟩
    rw [List.filter_map]
    rw [List.filter_congr (fun ci _ => show
        ((fun x => x.cartId == c₀.id && x.productId == pid)
          ((fun x => if x.id == r.id then { x with quantity := x.quantity + d } else x) ci))
        = (ci.cartId == c₀.id && ci.productId == pid) from by
      by_cases hid : ci.id == r.id <;> simp [hid])]
    rw [hrow]
    simp [hrq]
  · intro hp hrow
    have hfindci : st.cartItems.find? (fun ci => ci.cartId == c₀.id && ci.productId == pid)
        = Option.none := by
      rw [List.find?_eq_none]
      intro x hx
      intro hpx
      have : x ∈ st.cartItems.filter (fun ci => ci.cartId == c₀.id && ci.productId == pid) :=
        List.mem_filter.mpr ⟨hx, hpx⟩
      rw [hrow] at this
      simp at this
    unfold AddToCart
    rw [hget]
    simp [hp, hfindci]

/-- C9, witness at the one-item store: upserting two more units of
product 1 into user 1's cart succeeds without adding a row, and adding
the missing product 99 fails with product-not-found. -/
theorem C9_amended_witness :
    (AddToCart exampleState 1 1 2).1 = Except.ok ()
    ∧ (AddToCart exampleState 1 1 2).2.cartItems.length = exampleState.cartItems.length
    ∧ (AddToCart exampleState 1 99 2).1 = Except.error Err.productNotFound :=
  ⟨((C9_amended exampleState 1 1 2 ⟨10, 1⟩ (by decide)).2.1 ⟨100, 10, 1, 2⟩
      (by decide) (by decide)).1,
   ((C9_amended exampleState 1 1 2 ⟨10, 1⟩ (by decide)).2.1 ⟨100, 10, 1, 2⟩
      (by decide) (by decide)).2.2,
   ((C9_amended exampleState 1 99 2 ⟨10, 1⟩ (by decide)).1 (by decide)).1⟩

end Ecom
